import Mathlib

/-!
Shallow embedding of the biochar estimation service (main.py).

Numeric values are modelled as exact rationals; a Python float literal
such as 0.25 or 0.05 is the exact fraction 25/100 or 5/100 here (decimal
literal syntax is avoided because Rat.ofScientific is irreducible, which
would block kernel evaluation). Python round(x, 2) is
modelled as exact round-half-to-even at two decimal places. The geodesic
area routine and the image decoder are third-party collaborators (pyproj,
PIL), not code of this repository: they enter the model as parameters (a
signed-area function for the polygon path, an optional decoded pixel size
for the image path). Coordinate-text parsing is modelled character by
character following the Python code: str.strip, str.split on a newline,
re.split on runs of commas and whitespace, and float() on each token
restricted to the decimal grammar (sign, digits, optional point, optional
exponent; the model leaves out inf, nan, underscores and non-ASCII digits).
-/

namespace Biochar

/-- Python str.strip / the regex class \s : ASCII whitespace. -/
def pyIsSpace (c : Char) : Bool :=
  c = ' ' || c = '\t' || c = '\n' || c = '\r' || c = '\x0b' || c = '\x0c'

/-- A separator character of the regex [,\s]+ used in estimate_polygon. -/
def pyIsSep (c : Char) : Bool :=
  c = ',' || pyIsSpace c

/-- Python str.strip on a character list: drop whitespace at both ends. -/
def pyStrip (cs : List Char) : List Char :=
  ((cs.dropWhile pyIsSpace).reverse.dropWhile pyIsSpace).reverse

/-- Python str.split on a single newline: empty pieces are kept. -/
def splitNl (cs : List Char) : List (List Char) :=
  cs.foldr
    (fun c acc =>
      if c = '\n' then [] :: acc
      else match acc with
        | t :: rest => (c :: t) :: rest
        | [] => [[c]])
    [[]]

/-- One step of re.split on the class [,\s]+ : a run of separators closes
the current token; the boolean records that the previous character was a
separator, so a run produces a single split. -/
def splitSepStep (st : List (List Char) × List Char × Bool) (c : Char) :
    List (List Char) × List Char × Bool :=
  let (done, cur, inSep) := st
  if pyIsSep c then
    if inSep then st else (cur.reverse :: done, [], true)
  else
    (done, c :: cur, false)

/-- Python re.split with pattern [,\s]+ : tokens between separator runs,
with an empty token at an end of the string that touches a separator. -/
def reSplitSep (cs : List Char) : List (List Char) :=
  let fin := cs.foldl splitSepStep ([], [], false)
  (fin.2.1.reverse :: fin.1).reverse

/-- Value of a digit string, most significant first. -/
def digitsToNat (ds : List Char) : ℕ :=
  ds.foldl (fun n c => 10 * n + (c.toNat - 48)) 0

/-- The exponent tail of the float grammar: either nothing is left, or
e / E, an optional sign and a nonempty digit string ending the token. -/
def pyFloatExp (mant : ℚ) (cs : List Char) : Option ℚ :=
  match cs with
  | [] => some mant
  | e :: rest =>
    if e = 'e' || e = 'E' then
      let (neg, rest2) :=
        match rest with
        | '+' :: r => (false, r)
        | '-' :: r => (true, r)
        | _ => (false, rest)
      let eds := rest2.takeWhile Char.isDigit
      let rest3 := rest2.dropWhile Char.isDigit
      if eds.isEmpty || !rest3.isEmpty then none
      else some (if neg then mant / 10 ^ digitsToNat eds else mant * 10 ^ digitsToNat eds)
    else none

/-- Python float() on one token, restricted to the decimal grammar:
an optional sign, then digits with an optional point (at least one digit
on one side of the point), then an optional exponent. -/
def pyFloat (cs : List Char) : Option ℚ :=
  let (neg, cs1) :=
    match cs with
    | '+' :: rest => (false, rest)
    | '-' :: rest => (true, rest)
    | _ => (false, cs)
  let intPart := cs1.takeWhile Char.isDigit
  let cs2 := cs1.dropWhile Char.isDigit
  let mant : Option ℚ :=
    match cs2 with
    | '.' :: rest =>
      let fracPart := rest.takeWhile Char.isDigit
      let cs3 := rest.dropWhile Char.isDigit
      if intPart.isEmpty && fracPart.isEmpty then none
      else pyFloatExp ((digitsToNat intPart : ℚ) +
        (digitsToNat fracPart : ℚ) / 10 ^ fracPart.length) cs3
    | _ =>
      if intPart.isEmpty then none else pyFloatExp (digitsToNat intPart : ℚ) cs2
  mant.map (fun m => if neg then -m else m)

/-- Feedstock record: density (kg per cubic meter), yield factor and
default pile height (m), as in FEEDSTOCK_DATA of main.py. -/
structure FeedstockInfo where
  density : ℚ
  yield_factor : ℚ
  default_height : ℚ
deriving DecidableEq, Repr

/-- The feedstock lookup table of main.py, lines 15-24. -/
def FEEDSTOCK_DATA : List (String × FeedstockInfo) :=
  [("Rice husk", ⟨96, (25/100), (20/100)⟩),
   ("Wood chips", ⟨208, (30/100), (30/100)⟩),
   ("Corn cobs", ⟨190, (28/100), (25/100)⟩),
   ("Coconut shells", ⟨220, (35/100), (30/100)⟩),
   ("Bamboo", ⟨180, (33/100), (25/100)⟩),
   ("Sugarcane bagasse", ⟨140, (22/100), (20/100)⟩),
   ("Groundnut shells", ⟨130, (26/100), (20/100)⟩),
   ("Sludge", ⟨110, (50/100), (15/100)⟩)]

/-- Python dict lookup FEEDSTOCK_DATA[name]: case-sensitive exact match. -/
def lookupFeedstock (name : String) : Option FeedstockInfo :=
  (FEEDSTOCK_DATA.find? (fun p => p.1 = name)).map (fun p => p.2)

/-- COVERAGE_FRACTION = 0.05, line 26 of main.py. -/
def COVERAGE_FRACTION : ℚ := (5/100)

/-- The resolution table for image sources, lines 30-34 of main.py. -/
def RESOLUTION_LOOKUP : List (String × ℚ) :=
  [("Satellite", (4/100)), ("Low Drone", (6/100)), ("High Drone", (2/100))]

/-- Python dict lookup RESOLUTION_LOOKUP[image_source]. -/
def lookupResolution (image_source : String) : Option ℚ :=
  (RESOLUTION_LOOKUP.find? (fun p => p.1 = image_source)).map (fun p => p.2)

/-- An HTTPException of main.py: status code and detail message. -/
structure HTTPError where
  status : ℕ
  detail : String
deriving DecidableEq, Repr

/-- The response record of main.py, lines 48-51. -/
structure BiocharResponse where
  biomass_mass_kg : ℚ
  biochar_yield_kg : ℚ
  application_rate_kg_per_ha : ℚ
deriving DecidableEq, Repr

/-- Round a rational to the nearest integer, ties to the even neighbour:
the semantics of Python round() on an exact value. -/
def roundHalfEven (q : ℚ) : ℤ :=
  if q - q.floor < 1/2 then q.floor
  else if 1/2 < q - q.floor then q.floor + 1
  else if q.floor % 2 = 0 then q.floor else q.floor + 1

/-- Python round(x, 2) on an exact value: half-to-even at 2 decimals. -/
def round2 (q : ℚ) : ℚ :=
  (roundHalfEven (q * 100) : ℚ) / 100

/-- Line 59 of main.py: height_m = pile_height if pile_height else
feedstock default. Python truthiness: None and 0.0 are falsy, every other
float (negative ones included) is truthy. -/
def effectiveHeight (pile_height : Option ℚ) (default_height : ℚ) : ℚ :=
  match pile_height with
  | some h => if h = 0 then default_height else h
  | none => default_height

/-- Lines 66-70 of main.py: biomass mass before rounding. -/
def rawBiomass (info : FeedstockInfo) (area_m2 height_m : ℚ) : ℚ :=
  ((area_m2 * COVERAGE_FRACTION) * height_m) * info.density

/-- Line 71 of main.py: biochar yield before rounding. -/
def rawBiochar (info : FeedstockInfo) (area_m2 height_m : ℚ) : ℚ :=
  rawBiomass info area_m2 height_m * info.yield_factor

/-- Lines 63 and 72 of main.py: application rate before rounding, with
the guard area_ha > 0 (else 0). -/
def rawRate (info : FeedstockInfo) (area_m2 height_m : ℚ) : ℚ :=
  if area_m2 / 10000 > 0 then rawBiochar info area_m2 height_m / (area_m2 / 10000)
  else 0

/-- The detail string of the invalid-feedstock HTTPException, line 56. -/
def invalidFeedstockMsg : String := "Invalid feedstock type"

/-- calculate of main.py, lines 54-78. -/
def calculate (feedstock_type : String) (area_m2 : ℚ) (pile_height : Option ℚ) :
    Except HTTPError BiocharResponse :=
  match lookupFeedstock feedstock_type with
  | none => .error ⟨400, invalidFeedstockMsg⟩
  | some info =>
    let height_m := effectiveHeight pile_height info.default_height
    .ok ⟨round2 (rawBiomass info area_m2 height_m),
         round2 (rawBiochar info area_m2 height_m),
         round2 (rawRate info area_m2 height_m)⟩

/-- Line 87 of main.py: the area handed to calculate by the direct path. -/
def direct_area_m2 (hectares : ℚ) : ℚ := hectares * 10000

/-- estimate_direct of main.py, lines 85-88. -/
def estimate_direct (feedstock_type : String) (hectares : ℚ)
    (pile_height : Option ℚ) : Except HTTPError BiocharResponse :=
  calculate feedstock_type (direct_area_m2 hectares) pile_height

/-- Line 99 of main.py: the signed geodesic area is normalized by abs. -/
def polygon_area_m2 (signed : ℚ) : ℚ := |signed|

/-- The detail string of the invalid-geometry HTTPException, line 101.
The fewer-than-3-points HTTPException of line 96 is raised inside the try
block, so the except clause catches it and re-raises with this same
message: every failure of the polygon path carries this detail. -/
def invalidGeometryMsg : String := "Invalid coordinate format. Use \x27lat,lon\x27 per line."

/-- Line 93 of main.py for one line of text: strip the line, split on runs
of commas and whitespace, parse every token with float(); the later tuple
unpacking (line 97) demands exactly two numbers per line. -/
def parseLine (line : List Char) : Option (ℚ × ℚ) :=
  match (reSplitSep (pyStrip line)).mapM pyFloat with
  | some [lat, lon] => some (lat, lon)
  | _ => none

/-- Lines 93-94 of main.py: strip the whole text, split on newlines, drop
blank lines, parse each remaining line into a lat-lon pair; any failing
line fails the whole parse. -/
def parsePolygon (coordinates : String) : Option (List (ℚ × ℚ)) :=
  ((splitNl (pyStrip coordinates.toList)).filter
    (fun l => pyStrip l ≠ [])).mapM parseLine

/-- estimate_polygon of main.py, lines 90-103. The signed geodesic area
computed by pyproj (an external collaborator) is a parameter; the code
takes its absolute value. -/
def estimate_polygon (signedArea : List (ℚ × ℚ) → ℚ) (feedstock_type : String)
    (coordinates : String) (pile_height : Option ℚ) :
    Except HTTPError BiocharResponse :=
  match parsePolygon coordinates with
  | none => .error ⟨400, invalidGeometryMsg⟩
  | some coords =>
    if coords.length < 3 then .error ⟨400, invalidGeometryMsg⟩
    else calculate feedstock_type (polygon_area_m2 (signedArea coords)) pile_height

/-- The detail string of the invalid-image-source HTTPException, line 115. -/
def invalidImageSourceMsg : String :=
  "Invalid image source. Choose Satellite, Low Drone, or High Drone."

/-- The detail string of the invalid-image HTTPException, line 125. -/
def invalidImageMsg : String := "Invalid JPEG image."

/-- Line 123 of main.py: pixel size to ground area. -/
def jpeg_area_m2 (width_px height_px : ℕ) (resolution : ℚ) : ℚ :=
  ((width_px : ℚ) * resolution) * ((height_px : ℚ) * resolution)

/-- estimate_jpeg of main.py, lines 106-127. Reading and decoding the
uploaded bytes is the job of an external collaborator (PIL); its outcome
is the parameter decoded: none models a decode failure, some (w, h) a
successful decode with that pixel size. The image-source check happens
first, before the bytes are touched. -/
def estimate_jpeg (feedstock_type : String) (pile_height : Option ℚ)
    (image_source : String) (decoded : Option (ℕ × ℕ)) :
    Except HTTPError BiocharResponse :=
  match lookupResolution image_source with
  | none => .error ⟨400, invalidImageSourceMsg⟩
  | some resolution =>
    match decoded with
    | none => .error ⟨400, invalidImageMsg⟩
    | some wh => calculate feedstock_type (jpeg_area_m2 wh.1 wh.2 resolution) pile_height

end Biochar

deriving instance DecidableEq for Except

namespace Biochar

/-! Helper lemmas about the rounding function. -/

lemma floorR (q : ℚ) : q.floor = ⌊q⌋ := by
  rw [Rat.floor_def', ← Rat.floor_def]

lemma roundHalfEven_eq (q : ℚ) :
    roundHalfEven q =
      if q - ⌊q⌋ < 1/2 then ⌊q⌋
      else if 1/2 < q - ⌊q⌋ then ⌊q⌋ + 1
      else if ⌊q⌋ % 2 = 0 then ⌊q⌋ else ⌊q⌋ + 1 := by
  unfold roundHalfEven
  rw [floorR]

lemma floor_le_roundHalfEven (q : ℚ) : ⌊q⌋ ≤ roundHalfEven q := by
  rw [roundHalfEven_eq]
  split_ifs <;> omega

lemma roundHalfEven_le_floor_add_one (q : ℚ) : roundHalfEven q ≤ ⌊q⌋ + 1 := by
  rw [roundHalfEven_eq]
  split_ifs <;> omega

lemma roundHalfEven_coe (n : ℤ) : roundHalfEven (n : ℚ) = n := by
  rw [roundHalfEven_eq]
  norm_num

lemma roundHalfEven_mono {x y : ℚ} (h : x ≤ y) : roundHalfEven x ≤ roundHalfEven y := by
  rcases lt_or_eq_of_le (Int.floor_le_floor h) with hf | hf
  · calc roundHalfEven x ≤ ⌊x⌋ + 1 := roundHalfEven_le_floor_add_one x
      _ ≤ ⌊y⌋ := by omega
      _ ≤ roundHalfEven y := floor_le_roundHalfEven y
  · have hfQ : ((⌊x⌋ : ℤ) : ℚ) = ((⌊y⌋ : ℤ) : ℚ) := by exact_mod_cast hf
    rw [roundHalfEven_eq, roundHalfEven_eq]
    split_ifs <;> first | omega | (exfalso; linarith)

lemma roundHalfEven_dist (q : ℚ) : |q - roundHalfEven q| ≤ 1/2 := by
  have h1 : ((⌊q⌋ : ℤ) : ℚ) ≤ q := Int.floor_le q
  have h2 : q < (⌊q⌋ : ℤ) + 1 := Int.lt_floor_add_one q
  rw [roundHalfEven_eq]
  split_ifs <;> rw [abs_le] <;> constructor <;> push_cast <;> linarith

lemma roundHalfEven_tie {q : ℚ} (h : |q - roundHalfEven q| = 1/2) :
    roundHalfEven q % 2 = 0 := by
  have h1 : ((⌊q⌋ : ℤ) : ℚ) ≤ q := Int.floor_le q
  have h2 : q < (⌊q⌋ : ℤ) + 1 := Int.lt_floor_add_one q
  rw [roundHalfEven_eq] at h ⊢
  split_ifs at h ⊢ with ha hb hc
  · exfalso
    rw [abs_of_nonneg (by linarith)] at h
    linarith
  · exfalso
    rw [abs_of_nonpos (by push_cast; linarith)] at h
    push_cast at h
    linarith
  · exact hc
  · omega

lemma round2_mono {x y : ℚ} (h : x ≤ y) : round2 x ≤ round2 y := by
  unfold round2
  have : roundHalfEven (x * 100) ≤ roundHalfEven (y * 100) :=
    roundHalfEven_mono (by linarith)
  have hc : ((roundHalfEven (x * 100) : ℤ) : ℚ) ≤ ((roundHalfEven (y * 100) : ℤ) : ℚ) := by
    exact_mod_cast this
  linarith

lemma round2_eval (q : ℚ) (m : ℤ) (r : ℚ) (h1 : q * 100 = (m : ℚ))
    (h2 : (m : ℚ) / 100 = r) : round2 q = r := by
  unfold round2
  rw [h1, roundHalfEven_coe, h2]

lemma round2_zero : round2 0 = 0 :=
  round2_eval 0 0 0 (by norm_num) (by norm_num)

/-! Helper lemmas about the catalog and the calculation pipeline. -/

lemma calculate_ok (name : String) (info : FeedstockInfo) (a : ℚ) (ph : Option ℚ)
    (h : lookupFeedstock name = some info) :
    calculate name a ph =
      .ok ⟨round2 (rawBiomass info a (effectiveHeight ph info.default_height)),
           round2 (rawBiochar info a (effectiveHeight ph info.default_height)),
           round2 (rawRate info a (effectiveHeight ph info.default_height))⟩ := by
  rw [calculate, h]

lemma calculate_err (name : String) (a : ℚ) (ph : Option ℚ)
    (h : lookupFeedstock name = none) :
    calculate name a ph = .error ⟨400, invalidFeedstockMsg⟩ := by
  rw [calculate, h]

lemma lookup_wood : lookupFeedstock "Wood chips" = some ⟨208, 30/100, 30/100⟩ := rfl

lemma lookup_sludge : lookupFeedstock "Sludge" = some ⟨110, 50/100, 15/100⟩ := rfl

lemma lookup_props {name : String} {info : FeedstockInfo}
    (h : lookupFeedstock name = some info) :
    0 < info.density ∧ 0 < info.yield_factor ∧ info.yield_factor ≤ 1 ∧
      0 < info.default_height := by
  have hmem : ∃ p ∈ FEEDSTOCK_DATA, p.2 = info := by
    unfold lookupFeedstock at h
    obtain ⟨p, hp, hpi⟩ := Option.map_eq_some'.mp h
    exact ⟨p, List.mem_of_find?_eq_some hp, hpi⟩
  obtain ⟨p, hp, rfl⟩ := hmem
  fin_cases hp <;> norm_num

/-- C1: for every catalog feedstock, every area_m2 ≥ 0 and an absent
pile-height override, the pipeline returns
biomass_mass_kg = round2 (area_m2 * 0.05 * default_height * density),
biochar_yield_kg = round2 (biomass * yield_factor), and, when area_m2 > 0,
application_rate_kg_per_ha = round2 (biochar / (area_m2 / 10000)). -/
theorem C1_direct_formula (name : String) (info : FeedstockInfo)
    (hlook : lookupFeedstock name = some info) (a : ℚ) (ha : 0 ≤ a) :
    ∃ r, calculate name a none = .ok r ∧
      r.biomass_mass_kg = round2 (a * (5/100) * info.default_height * info.density) ∧
      r.biochar_yield_kg =
        round2 (a * (5/100) * info.default_height * info.density * info.yield_factor) ∧
      (0 < a → r.application_rate_kg_per_ha =
        round2 (a * (5/100) * info.default_height * info.density * info.yield_factor /
          (a / 10000))) := by
  rw [calculate_ok name info a none hlook]
  refine ⟨_, rfl, ?_, ?_, ?_⟩
  · refine congrArg round2 ?_
    unfold rawBiomass effectiveHeight COVERAGE_FRACTION
    ring
  · refine congrArg round2 ?_
    unfold rawBiochar rawBiomass effectiveHeight COVERAGE_FRACTION
    ring
  · intro hpos
    have hdiv : (0:ℚ) < a / 10000 := by positivity
    refine congrArg round2 ?_
    unfold rawRate rawBiochar rawBiomass effectiveHeight COVERAGE_FRACTION
    rw [if_pos hdiv]

/-- C1 witness: Wood chips at 1 hectare (area 10000 m²) gives
biomass 31200 kg, biochar 9360 kg, application rate 9360 kg/ha. -/
theorem C1_witness :
    (0:ℚ) ≤ 10000 ∧
    estimate_direct "Wood chips" 1 none = calculate "Wood chips" 10000 none ∧
    (∃ r, calculate "Wood chips" 10000 none = .ok r ∧
      r.biomass_mass_kg = 31200 ∧ r.biochar_yield_kg = 9360 ∧
      r.application_rate_kg_per_ha = 9360) := by
  obtain ⟨r, hr, h1, h2, h3⟩ :=
    C1_direct_formula "Wood chips" ⟨208, 30/100, 30/100⟩ lookup_wood 10000 (by norm_num)
  refine ⟨by norm_num, ?_, r, hr, ?_, ?_, ?_⟩
  · simp only [estimate_direct, direct_area_m2]
    norm_num
  · rw [h1]
    exact round2_eval _ 3120000 _ (by norm_num) (by norm_num)
  · rw [h2]
    exact round2_eval _ 936000 _ (by norm_num) (by norm_num)
  · rw [h3 (by norm_num)]
    exact round2_eval _ 936000 _ (by norm_num) (by norm_num)

/-- C4: for area_m2 = 0 and any known feedstock (any pile height), all
three outputs are exactly 0, with no division-by-zero fault: the rate is
0 by the explicit guard. -/
theorem C4_zero_area (name : String) (info : FeedstockInfo) (ph : Option ℚ)
    (hlook : lookupFeedstock name = some info) :
    calculate name 0 ph = .ok ⟨0, 0, 0⟩ := by
  rw [calculate_ok name info 0 ph hlook]
  have hb : rawBiomass info 0 (effectiveHeight ph info.default_height) = 0 := by
    unfold rawBiomass
    ring
  have hc : rawBiochar info 0 (effectiveHeight ph info.default_height) = 0 := by
    unfold rawBiochar
    rw [hb, zero_mul]
  have hr : rawRate info 0 (effectiveHeight ph info.default_height) = 0 := by
    unfold rawRate
    norm_num
  rw [hb, hc, hr, round2_zero]

/-- C4 witness: Sludge at area 0 returns the all-zero response. -/
theorem C4_witness : calculate "Sludge" 0 none = .ok ⟨0, 0, 0⟩ :=
  C4_zero_area "Sludge" ⟨110, 50/100, 15/100⟩ none lookup_sludge

/-- C10: for a fixed catalog feedstock and fixed pile height, the
unrounded application rate does not depend on the (positive) area: it
equals 10000 * COVERAGE_FRACTION * height * density * yield_factor. -/
theorem C10_rate_independent_of_area (name : String) (info : FeedstockInfo)
    (hlook : lookupFeedstock name = some info) (h a1 a2 : ℚ)
    (h1 : 0 < a1) (h2 : 0 < a2) :
    rawRate info a1 h = 10000 * COVERAGE_FRACTION * h * info.density * info.yield_factor ∧
    rawRate info a1 h = rawRate info a2 h := by
  have key : ∀ a : ℚ, 0 < a →
      rawRate info a h = 10000 * COVERAGE_FRACTION * h * info.density * info.yield_factor := by
    intro a ha
    have hdiv : (0:ℚ) < a / 10000 := by positivity
    unfold rawRate rawBiochar rawBiomass
    rw [if_pos hdiv, div_eq_iff (ne_of_gt hdiv)]
    ring
  exact ⟨key a1 h1, (key a1 h1).trans (key a2 h2).symm⟩

/-- C10 witness: the Wood chips rate at height 1/2 is the same for areas
250 and 777 m², equal to the closed form. -/
theorem C10_witness :
    rawRate ⟨208, 30/100, 30/100⟩ 250 (1/2) =
      10000 * COVERAGE_FRACTION * (1/2) * 208 * (30/100) ∧
    rawRate ⟨208, 30/100, 30/100⟩ 250 (1/2) = rawRate ⟨208, 30/100, 30/100⟩ 777 (1/2) :=
  C10_rate_independent_of_area "Wood chips" ⟨208, 30/100, 30/100⟩ lookup_wood
    (1/2) 250 777 (by norm_num) (by norm_num)

/-- C2 counterexample: a supplied pile height of -1 is non-positive, yet
line 59 uses it (Python truthiness tests only for zero or absent), so the
result differs from the default-height result: the claim that a
non-positive supplied height is never used is false. -/
theorem C2_cex :
    effectiveHeight (some (-1)) (30/100) = -1 ∧
    calculate "Wood chips" 10000 (some (-1)) = .ok ⟨-104000, -31200, -31200⟩ ∧
    calculate "Wood chips" 10000 none = .ok ⟨31200, 9360, 9360⟩ := by
  refine ⟨by norm_num [effectiveHeight], ?_, ?_⟩
  · rw [calculate_ok "Wood chips" ⟨208, 30/100, 30/100⟩ 10000 (some (-1)) lookup_wood]
    refine congrArg Except.ok ?_
    congr 1
    · exact round2_eval _ (-10400000) _
        (by norm_num [rawBiomass, effectiveHeight, COVERAGE_FRACTION]) (by norm_num)
    · exact round2_eval _ (-3120000) _
        (by norm_num [rawBiochar, rawBiomass, effectiveHeight, COVERAGE_FRACTION]) (by norm_num)
    · exact round2_eval _ (-3120000) _
        (by norm_num [rawRate, rawBiochar, rawBiomass, effectiveHeight, COVERAGE_FRACTION])
        (by norm_num)
  · rw [calculate_ok "Wood chips" ⟨208, 30/100, 30/100⟩ 10000 none lookup_wood]
    refine congrArg Except.ok ?_
    congr 1
    · exact round2_eval _ 3120000 _
        (by norm_num [rawBiomass, effectiveHeight, COVERAGE_FRACTION]) (by norm_num)
    · exact round2_eval _ 936000 _
        (by norm_num [rawBiochar, rawBiomass, effectiveHeight, COVERAGE_FRACTION]) (by norm_num)
    · exact round2_eval _ 936000 _
        (by norm_num [rawRate, rawBiochar, rawBiomass, effectiveHeight, COVERAGE_FRACTION])
        (by norm_num)

/-- C2 amended: the pile height used is the caller-supplied override when
it is present and nonzero (negative values included), and the feedstock
default when it is absent or exactly 0; and calculate feeds exactly this
effective height into the pipeline. -/
theorem C2_amended_truthy_height :
    (∀ d : ℚ, effectiveHeight none d = d) ∧
    (∀ d : ℚ, effectiveHeight (some 0) d = d) ∧
    (∀ d h : ℚ, h ≠ 0 → effectiveHeight (some h) d = h) ∧
    (∀ (name : String) (info : FeedstockInfo) (a : ℚ) (ph : Option ℚ),
      lookupFeedstock name = some info →
      calculate name a ph =
        .ok ⟨round2 (rawBiomass info a (effectiveHeight ph info.default_height)),
             round2 (rawBiochar info a (effectiveHeight ph info.default_height)),
             round2 (rawRate info a (effectiveHeight ph info.default_height))⟩) :=
  ⟨fun _ => rfl, fun d => by norm_num [effectiveHeight],
   fun d h hh => by simp [effectiveHeight, hh],
   fun name info a ph hl => calculate_ok name info a ph hl⟩

/-- C2 witness: a supplied height of -1 is used as is, a supplied height
of 0 falls back to the default 30/100, and calculate at Wood chips uses
the effective height. -/
theorem C2_witness :
    effectiveHeight (some (-2)) (30/100) = -2 ∧
    effectiveHeight (some 0) (30/100) = 30/100 ∧
    calculate "Wood chips" 10000 (some 0) =
      .ok ⟨round2 (rawBiomass ⟨208, 30/100, 30/100⟩ 10000
             (effectiveHeight (some 0) (30/100))),
           round2 (rawBiochar ⟨208, 30/100, 30/100⟩ 10000
             (effectiveHeight (some 0) (30/100))),
           round2 (rawRate ⟨208, 30/100, 30/100⟩ 10000
             (effectiveHeight (some 0) (30/100)))⟩ :=
  ⟨C2_amended_truthy_height.2.2.1 (30/100) (-2) (by norm_num),
   C2_amended_truthy_height.2.1 (30/100),
   C2_amended_truthy_height.2.2.2 "Wood chips" ⟨208, 30/100, 30/100⟩ 10000 (some 0)
     lookup_wood⟩

/-- C3 counterexample: with the (truthy-accepted) negative override -1,
Wood chips at 10000 m² returns biomass -104000 and biochar -31200, so
biochar_yield_kg ≤ biomass_mass_kg fails: the claim is false for
arbitrary pile height choices. -/
theorem C3_cex :
    ∃ r, calculate "Wood chips" 10000 (some (-1)) = .ok r ∧
      r.biomass_mass_kg < r.biochar_yield_kg := by
  refine ⟨⟨-104000, -31200, -31200⟩, ?_, by norm_num⟩
  rw [calculate_ok "Wood chips" ⟨208, 30/100, 30/100⟩ 10000 (some (-1)) lookup_wood]
  refine congrArg Except.ok ?_
  congr 1
  · exact round2_eval _ (-10400000) _
      (by norm_num [rawBiomass, effectiveHeight, COVERAGE_FRACTION]) (by norm_num)
  · exact round2_eval _ (-3120000) _
      (by norm_num [rawBiochar, rawBiomass, effectiveHeight, COVERAGE_FRACTION]) (by norm_num)
  · exact round2_eval _ (-3120000) _
      (by norm_num [rawRate, rawBiochar, rawBiomass, effectiveHeight, COVERAGE_FRACTION])
      (by norm_num)

/-- C3 amended: for every catalog feedstock, every area ≥ 0 and every
pile height choice whose effective height is nonnegative (absent, zero or
a positive override), biochar_yield_kg ≤ biomass_mass_kg, both before and
after rounding, since every catalog yield_factor is ≤ 1. -/
theorem C3_yield_le_biomass (name : String) (info : FeedstockInfo) (a : ℚ)
    (ph : Option ℚ) (hlook : lookupFeedstock name = some info) (ha : 0 ≤ a)
    (hh : 0 ≤ effectiveHeight ph info.default_height) :
    rawBiochar info a (effectiveHeight ph info.default_height) ≤
      rawBiomass info a (effectiveHeight ph info.default_height) ∧
    ∃ r, calculate name a ph = .ok r ∧ r.biochar_yield_kg ≤ r.biomass_mass_kg := by
  obtain ⟨hd, hyf, hyf1, hdh⟩ := lookup_props hlook
  have hbm : 0 ≤ rawBiomass info a (effectiveHeight ph info.default_height) := by
    unfold rawBiomass COVERAGE_FRACTION
    exact mul_nonneg (mul_nonneg (mul_nonneg ha (by norm_num)) hh) hd.le
  have hineq : rawBiochar info a (effectiveHeight ph info.default_height) ≤
      rawBiomass info a (effectiveHeight ph info.default_height) := by
    unfold rawBiochar
    exact mul_le_of_le_one_right hbm hyf1
  exact ⟨hineq, _, calculate_ok name info a ph hlook, round2_mono hineq⟩

/-- C3 witness: Wood chips, area 10000, absent override. -/
theorem C3_witness :
    rawBiochar ⟨208, 30/100, 30/100⟩ 10000 (effectiveHeight none (30/100)) ≤
      rawBiomass ⟨208, 30/100, 30/100⟩ 10000 (effectiveHeight none (30/100)) ∧
    ∃ r, calculate "Wood chips" 10000 none = .ok r ∧
      r.biochar_yield_kg ≤ r.biomass_mass_kg :=
  C3_yield_le_biomass "Wood chips" ⟨208, 30/100, 30/100⟩ 10000 none lookup_wood
    (by norm_num) (by norm_num [effectiveHeight])

/-- C5 counterexample: the direct path performs no sign check, so
hectares = -1 hands the negative area -10000 to calculate, which uses it
(biomass -31200, biochar -9360; the rate guard yields 0): the claim that
the area handed over is always ≥ 0 is false. -/
theorem C5_cex :
    direct_area_m2 (-1) = -10000 ∧ direct_area_m2 (-1) < 0 ∧
    estimate_direct "Wood chips" (-1) none = .ok ⟨-31200, -9360, 0⟩ := by
  refine ⟨by norm_num [direct_area_m2], by norm_num [direct_area_m2], ?_⟩
  show calculate "Wood chips" (direct_area_m2 (-1)) none = _
  rw [calculate_ok "Wood chips" ⟨208, 30/100, 30/100⟩ _ none lookup_wood]
  refine congrArg Except.ok ?_
  congr 1
  · exact round2_eval _ (-3120000) _
      (by norm_num [rawBiomass, effectiveHeight, direct_area_m2, COVERAGE_FRACTION])
      (by norm_num)
  · exact round2_eval _ (-936000) _
      (by norm_num [rawBiochar, rawBiomass, effectiveHeight, direct_area_m2,
        COVERAGE_FRACTION]) (by norm_num)
  · rw [show rawRate ⟨208, 30/100, 30/100⟩ (direct_area_m2 (-1))
        (effectiveHeight none (FeedstockInfo.default_height ⟨208, 30/100, 30/100⟩)) = 0 by
      norm_num [rawRate, direct_area_m2]]
    exact round2_zero

/-- C5 amended: the polygon path always hands a nonnegative area (absolute
value of the signed geodesic area) and the image path does so for any
nonnegative resolution, but the direct path hands hectares * 10000, which
is negative exactly when hectares is negative. -/
theorem C5_amended_area_sign :
    (∀ s : ℚ, 0 ≤ polygon_area_m2 s) ∧
    (∀ (w h : ℕ) (r : ℚ), 0 ≤ r → 0 ≤ jpeg_area_m2 w h r) ∧
    (∀ hect : ℚ, 0 ≤ hect → 0 ≤ direct_area_m2 hect) ∧
    (∀ hect : ℚ, hect < 0 → direct_area_m2 hect < 0) := by
  refine ⟨fun s => abs_nonneg s, fun w h r hr => ?_, fun hect hh => ?_, fun hect hh => ?_⟩
  · exact mul_nonneg (mul_nonneg (Nat.cast_nonneg w) hr)
      (mul_nonneg (Nat.cast_nonneg h) hr)
  · exact mul_nonneg hh (by norm_num)
  · exact mul_neg_of_neg_of_pos hh (by norm_num)

/-- C5 witness: concrete instances of the four sign facts. -/
theorem C5_witness :
    0 ≤ polygon_area_m2 (-5) ∧ 0 ≤ jpeg_area_m2 1000 500 (4/100) ∧
    0 ≤ direct_area_m2 2 ∧ direct_area_m2 (-1) < 0 :=
  ⟨C5_amended_area_sign.1 (-5),
   C5_amended_area_sign.2.1 1000 500 (4/100) (by norm_num),
   C5_amended_area_sign.2.2.1 2 (by norm_num),
   C5_amended_area_sign.2.2.2 (-1) (by norm_num)⟩

/-- C6: the catalog has exactly the 8 entries of the table with their
literal values, lookup is case-sensitive exact match, and any name
outside the 8 makes calculate fail with the 400 invalid-feedstock error,
regardless of area and pile height. -/
theorem C6_catalog :
    FEEDSTOCK_DATA.length = 8 ∧
    FEEDSTOCK_DATA.map Prod.fst =
      ["Rice husk", "Wood chips", "Corn cobs", "Coconut shells", "Bamboo",
       "Sugarcane bagasse", "Groundnut shells", "Sludge"] ∧
    lookupFeedstock "Rice husk" = some ⟨96, 25/100, 20/100⟩ ∧
    lookupFeedstock "Wood chips" = some ⟨208, 30/100, 30/100⟩ ∧
    lookupFeedstock "Corn cobs" = some ⟨190, 28/100, 25/100⟩ ∧
    lookupFeedstock "Coconut shells" = some ⟨220, 35/100, 30/100⟩ ∧
    lookupFeedstock "Bamboo" = some ⟨180, 33/100, 25/100⟩ ∧
    lookupFeedstock "Sugarcane bagasse" = some ⟨140, 22/100, 20/100⟩ ∧
    lookupFeedstock "Groundnut shells" = some ⟨130, 26/100, 20/100⟩ ∧
    lookupFeedstock "Sludge" = some ⟨110, 50/100, 15/100⟩ ∧
    (∀ name : String, name ∉ FEEDSTOCK_DATA.map Prod.fst →
      ∀ (a : ℚ) (ph : Option ℚ),
      calculate name a ph = .error ⟨400, invalidFeedstockMsg⟩) := by
  refine ⟨rfl, rfl, rfl, rfl, rfl, rfl, rfl, rfl, rfl, rfl, ?_⟩
  intro name hname a ph
  have hnone : lookupFeedstock name = none := by
    unfold lookupFeedstock
    have hfind : FEEDSTOCK_DATA.find? (fun p => p.1 = name) = none := by
      rw [List.find?_eq_none]
      intro x hx hpx
      exact hname (List.mem_map.mpr ⟨x, hx, by simpa using hpx⟩)
    rw [hfind]
    rfl
  exact calculate_err name a ph hnone

/-- C6 witness: the lowercase name is not a key (case sensitivity), and
calculate rejects it with the 400 error. -/
theorem C6_witness :
    "wood chips" ∉ FEEDSTOCK_DATA.map Prod.fst ∧
    calculate "wood chips" 10000 none = .error ⟨400, invalidFeedstockMsg⟩ := by
  have hnm : "wood chips" ∉ FEEDSTOCK_DATA.map Prod.fst := by decide
  exact ⟨hnm, C6_catalog.2.2.2.2.2.2.2.2.2.2 "wood chips" hnm 10000 none⟩

/-- C7: a parse failure (some non-blank line without exactly two floats)
or fewer than 3 parsed points fails the whole polygon request with the
400 invalid-geometry error, for every feedstock, pile height and signed
area function; and parsing tolerates mixed comma/whitespace separators
and trailing blank lines. -/
theorem C7_polygon_parsing :
    (∀ (A : List (ℚ × ℚ) → ℚ) (fs : String) (ph : Option ℚ) (s : String),
      parsePolygon s = none →
      estimate_polygon A fs s ph = .error ⟨400, invalidGeometryMsg⟩) ∧
    (∀ (A : List (ℚ × ℚ) → ℚ) (fs : String) (ph : Option ℚ) (s : String)
      (pts : List (ℚ × ℚ)), parsePolygon s = some pts → pts.length < 3 →
      estimate_polygon A fs s ph = .error ⟨400, invalidGeometryMsg⟩) ∧
    parsePolygon "1, 2\n3\t4\n5 ,  6\n\n" = some [(1, 2), (3, 4), (5, 6)] := by
  refine ⟨?_, ?_, by decide⟩
  · intro A fs ph s h
    unfold estimate_polygon
    rw [h]
  · intro A fs ph s pts h h3
    unfold estimate_polygon
    rw [h]
    exact if_pos h3

/-- C7 witness: a line that is not two numbers fails the whole request;
two valid points are fewer than three and also fail; both with the same
400 error, for an arbitrary signed-area function. -/
theorem C7_witness :
    estimate_polygon (fun _ => 0) "Wood chips" "not numbers\n1,2\n3,4" none =
      .error ⟨400, invalidGeometryMsg⟩ ∧
    estimate_polygon (fun _ => 0) "Wood chips" "1,2\n3,4" none =
      .error ⟨400, invalidGeometryMsg⟩ :=
  ⟨C7_polygon_parsing.1 _ "Wood chips" none _ (by decide),
   C7_polygon_parsing.2.1 _ "Wood chips" none _ [(1, 2), (3, 4)] (by decide) (by decide)⟩

/-- C8: an image-source tag outside the resolution table fails with the
400 invalid-image-source error for every decode outcome (so the result is
independent of the file contents); the three known tags map to 0.04, 0.06
and 0.02 m/px; a successful decode feeds (w*res)*(h*res) to calculate;
and Satellite at 1000 x 500 px gives 800 m². -/
theorem C8_image_source :
    (∀ (fs : String) (ph : Option ℚ) (src : String) (d d' : Option (ℕ × ℕ)),
      lookupResolution src = none →
      estimate_jpeg fs ph src d = .error ⟨400, invalidImageSourceMsg⟩ ∧
      estimate_jpeg fs ph src d = estimate_jpeg fs ph src d') ∧
    lookupResolution "Satellite" = some (4/100) ∧
    lookupResolution "Low Drone" = some (6/100) ∧
    lookupResolution "High Drone" = some (2/100) ∧
    (∀ (fs : String) (ph : Option ℚ) (src : String) (res : ℚ) (w h : ℕ),
      lookupResolution src = some res →
      estimate_jpeg fs ph src (some (w, h)) = calculate fs (jpeg_area_m2 w h res) ph) ∧
    jpeg_area_m2 1000 500 (4/100) = 800 := by
  refine ⟨?_, rfl, rfl, rfl, ?_, ?_⟩
  · intro fs ph src d d' hn
    unfold estimate_jpeg
    rw [hn]
    exact ⟨rfl, rfl⟩
  · intro fs ph src res w h hs
    unfold estimate_jpeg
    rw [hs]
  · unfold jpeg_area_m2
    push_cast
    norm_num

/-- C8 witness: the unknown tag Ground is rejected identically for a
decoded 10 x 10 image and a failed decode; Satellite at 1000 x 500
reaches calculate with the area 800. -/
theorem C8_witness :
    estimate_jpeg "Wood chips" none "Ground" (some (10, 10)) =
      .error ⟨400, invalidImageSourceMsg⟩ ∧
    estimate_jpeg "Wood chips" none "Ground" (some (10, 10)) =
      estimate_jpeg "Wood chips" none "Ground" none ∧
    estimate_jpeg "Wood chips" none "Satellite" (some (1000, 500)) =
      calculate "Wood chips" (jpeg_area_m2 1000 500 (4/100)) none := by
  obtain ⟨h1, h2⟩ :=
    C8_image_source.1 "Wood chips" none "Ground" (some (10, 10)) none rfl
  exact ⟨h1, h2,
    C8_image_source.2.2.2.2.1 "Wood chips" none "Satellite" (4/100) 1000 500
      C8_image_source.2.1⟩

/-- C9: every successful calculate result carries round2 of the three raw
values, and round2 is rounding to 2 decimal places with ties to even: its
value is an integer number of hundredths within 1/200 of the input, and
at distance exactly 1/200 that integer is even. -/
theorem C9_round_half_even :
    (∀ (name : String) (info : FeedstockInfo) (a : ℚ) (ph : Option ℚ),
      lookupFeedstock name = some info →
      calculate name a ph =
        .ok ⟨round2 (rawBiomass info a (effectiveHeight ph info.default_height)),
             round2 (rawBiochar info a (effectiveHeight ph info.default_height)),
             round2 (rawRate info a (effectiveHeight ph info.default_height))⟩) ∧
    (∀ q : ℚ, ∃ n : ℤ, round2 q = (n : ℚ) / 100 ∧ |q - round2 q| ≤ 1/200 ∧
      (|q - round2 q| = 1/200 → n % 2 = 0)) := by
  refine ⟨fun name info a ph hl => calculate_ok name info a ph hl, fun q => ?_⟩
  refine ⟨roundHalfEven (q * 100), rfl, ?_, ?_⟩
  · have h := roundHalfEven_dist (q * 100)
    unfold round2
    rw [abs_le] at h ⊢
    constructor <;> linarith [h.1, h.2]
  · intro htie
    apply roundHalfEven_tie
    unfold round2 at htie
    have e : q * 100 - (roundHalfEven (q * 100) : ℚ) =
        (q - (roundHalfEven (q * 100) : ℚ) / 100) * 100 := by
      ring
    rw [e, abs_mul, abs_of_pos (show (0:ℚ) < 100 by norm_num), htie]
    norm_num

/-- C9 witness: Wood chips at 10000 m² returns the rounded raw values,
the characterization holds at q = 1/8, and the tie 0.125 rounds down to
the even hundredth 0.12 (banker rounding), not up to 0.13. -/
theorem C9_witness :
    calculate "Wood chips" 10000 none =
      .ok ⟨round2 (rawBiomass ⟨208, 30/100, 30/100⟩ 10000
             (effectiveHeight none (30/100))),
           round2 (rawBiochar ⟨208, 30/100, 30/100⟩ 10000
             (effectiveHeight none (30/100))),
           round2 (rawRate ⟨208, 30/100, 30/100⟩ 10000
             (effectiveHeight none (30/100)))⟩ ∧
    (∃ n : ℤ, round2 (1/8) = (n : ℚ) / 100 ∧ |1/8 - round2 (1/8)| ≤ 1/200 ∧
      (|1/8 - round2 (1/8)| = 1/200 → n % 2 = 0)) ∧
    round2 (1/8) = 12/100 := by
  refine ⟨C9_round_half_even.1 "Wood chips" ⟨208, 30/100, 30/100⟩ 10000 none lookup_wood,
    C9_round_half_even.2 (1/8), ?_⟩
  have hfloor : ⌊(1/8 * 100 : ℚ)⌋ = 12 := by
    refine Int.floor_eq_iff.mpr ⟨by norm_num, by norm_num⟩
  unfold round2
  rw [roundHalfEven_eq, hfloor]
  norm_num

end Biochar
